import Mathlib

/-!
Verification of the deploy-server job execution and tracking subsystem
(`src/main.rs`) against its natural-language specification.

The embedding models the Rust program shallowly:

* `Job` mirrors `struct Job { app: String, result: RwLock<(String, Option<i32>)> }`.
  The `RwLock` contents are modelled as a plain pair since each job has a
  single writer (its runner thread); `JobResult` names the two components.
* `deploy_app` mirrors `fn deploy_app(job, script)` (main.rs lines 74-105).
  The operating system's behaviour for the spawned child process is abstracted
  as a `ProcBehavior`: whether `Command::spawn` succeeds, the sequence of
  `read_line` outcomes on the piped stdout, the lines the script writes to
  stderr (which the program never pipes - `Command::new(&script).stdout(Stdio::piped())`
  pipes stdout only, so `child.stderr` is `None`), and the result of `child.wait()`.
* A Rust `panic!` (from `.unwrap()`) aborts the detached runner thread; the
  job's shared state keeps whatever was written before the panic.  `deploy_app`
  therefore returns the job's final observable `JobResult` together with a
  `RunEnd` marker saying whether the thread finished normally or panicked.
-/

/-- Outcome of `child.wait()` when it succeeds: Rust's `ExitStatus`.
`code = none` models termination by signal (`ExitStatus::code()` is `None`). -/
structure WaitStatus where
  code : Option Int
deriving DecidableEq, Repr

/-- Rust `ExitStatus::success()`: true exactly when the exit code is 0. -/
def WaitStatus.success (s : WaitStatus) : Bool := s.code = some 0

/-- The contents of a `Job`'s `result: RwLock<(String, Option<i32>)>`:
accumulated output text and the optional exit status. -/
structure JobResult where
  output : String
  status : Option Int
deriving DecidableEq, Repr

/-- `RwLock::default()`: empty output, no status (the "running" state). -/
def JobResult.init : JobResult := { output := "", status := none }

/-- `struct Job { app: String, result: ... }` (main.rs lines 10-13). -/
structure Job where
  app : String
  result : JobResult
deriving DecidableEq, Repr

/-- `Job::new(app)` (main.rs lines 16-21). -/
def Job.new (app : String) : Job := { app := app, result := JobResult.init }

/-- One attempt of `output.read_line(&mut buf)` on the piped stdout:
`ok line` is a successful read of one line (`line` includes any trailing
newline), `error ()` is an `Err` (the bytes read were not valid UTF-8).
End of stream (`Ok(0)`) is reaching the end of the list. -/
abbrev ReadOutcome := Except Unit String

/-- The observable behaviour of the operating system and child process for one
run of the deploy script.  `stderrLines` is what the script writes to its
stderr; the program never pipes stderr, so these lines go to the inherited
file descriptor and are unavailable to `deploy_app`. -/
structure ProcBehavior where
  spawnOk : Bool
  stdoutReads : List ReadOutcome
  stderrLines : List String
  waitResult : Except String WaitStatus
deriving Repr

/-- `child.stderr` after `Command::new(&script).stdout(Stdio::piped()).spawn()`:
only stdout was configured as a pipe, so the stderr handle is `None`
(main.rs lines 75-78 configure the command; line 94 takes `child.stderr`). -/
def childStderr : Option String := none

/-- Whether the runner thread finished `deploy_app` normally or aborted in a
panic from an `.unwrap()`. -/
inductive RunEnd where
  | finished
  | panicked
deriving DecidableEq, Repr

/-- The `while let Ok(n) = output.read_line(&mut buf)` loop
(main.rs lines 81-88): accumulates each successfully read line onto the
output string; stops at end of stream (`n == 0`) and also stops as soon as
`read_line` returns `Err` (invalid UTF-8), because `while let Ok(..)` exits
the loop on the first `Err`. -/
def readLoop : List ReadOutcome → String → String
  | [], acc => acc
  | .ok line :: rest, acc => readLoop rest (acc ++ line)
  | .error _ :: _, acc => acc

/-- The successive values taken by the job's output string during the read
loop: one entry per completed `job.result.write().unwrap().0 += buf` append. -/
def readLoopTrace : List ReadOutcome → String → List String
  | [], _ => []
  | .ok line :: rest, acc => (acc ++ line) :: readLoopTrace rest (acc ++ line)
  | .error _ :: _, _ => []

/-- `fn deploy_app(job, script)` (main.rs lines 74-105), as the final
observable `result` of the job plus how the runner thread ended.

* `spawn().unwrap()` (line 78): a spawn failure panics the thread with the
  job's result still at its default.
* the read loop (lines 81-88) accumulates piped stdout lines (`readLoop`).
* `child.wait()` (line 90):
  - `Ok(status)` and `!status.success()`: the code takes
    `child.stderr.take().unwrap()` (line 94), but stderr was never piped
    (`childStderr = none`), so the `.unwrap()` panics before any further
    write; the job keeps the accumulated output and `status` stays `none`.
  - `Ok(status)` and `status.success()`: line 99 sets
    `status = Some(status.code().unwrap_or(255))`.
  - `Err(error)`: line 102 replaces the whole result with
    `(format!("Error: {}", error), Some(255))`. -/
def deploy_app (p : ProcBehavior) : JobResult × RunEnd :=
  if p.spawnOk = false then
    (JobResult.init, .panicked)
  else
    let out := readLoop p.stdoutReads ""
    match p.waitResult with
    | .ok status =>
      if status.success then
        ({ output := out, status := some (status.code.getD 255) }, .finished)
      else
        match childStderr with
        | none => ({ output := out, status := none }, .panicked)
        | some err =>
          ({ output := out ++ "\nSTDERR:\n" ++ err,
             status := some (status.code.getD 255) }, .finished)
    | .error e => ({ output := "Error: " ++ e, status := some 255 }, .finished)

/-- The sequence of values the job's `result` takes over the run of
`deploy_app`, starting from `JobResult.init` (set at `Job::new`), with one
entry per write performed under `job.result.write()`. -/
def deployTrace (p : ProcBehavior) : List JobResult :=
  let states := JobResult.init ::
    (readLoopTrace p.stdoutReads "").map (fun o => { output := o, status := none })
  if p.spawnOk = false then
    [JobResult.init]
  else
    let out := readLoop p.stdoutReads ""
    match p.waitResult with
    | .ok status =>
      if status.success then
        states ++ [{ output := out, status := some (status.code.getD 255) }]
      else
        match childStderr with
        | none => states
        | some err =>
          states ++
            [{ output := out ++ "\nSTDERR:\n" ++ err, status := none },
             { output := out ++ "\nSTDERR:\n" ++ err,
               status := some (status.code.getD 255) }]
    | .error e => states ++ [{ output := "Error: " ++ e, status := some 255 }]

/-- The console's per-job summary (main.rs lines 177-188): a textual exit-code
line once `status` is set, `"Running..."` while it is `None`. -/
def summary (r : JobResult) : String :=
  match r.status with
  | some status => "Exit code: " ++ toString status
  | none => "Running..."

/-- `jobs.write().unwrap().push(job)` on the shared `Vec<Arc<Job>>`
(main.rs line 148): appends at the end of the registry. -/
def register (jobs : List Job) (j : Job) : List Job := jobs ++ [j]

/-- The runner mutating the result of the job stored at index `i` of the
registry (each runner holds an `Arc` to its own job only). -/
def setResult (jobs : List Job) (i : Nat) (r : JobResult) : List Job :=
  match jobs[i]? with
  | some j => jobs.set i { app := j.app, result := r }
  | none => jobs

/-- The HTTP reply produced by both deploy routes:
`warp::reply::reply().into_response()` (main.rs lines 153 and 169), an empty
`200` response carrying no body and no job information. -/
inductive Response where
  | emptyReply
deriving DecidableEq, Repr

/-- The body of the thread spawned by the `/deploy` route handler
(main.rs lines 144-151): construct the job, push it into the shared registry
(it lands at index `jobs.length`), then run `deploy_app`, which mutates that
job's result in place. -/
def deployWorkerRun (app : String) (p : ProcBehavior) (jobs : List Job) : List Job :=
  let job := Job.new app
  let registered := register jobs job
  setResult registered jobs.length (deploy_app p).1

/-- The synchronous part of the `/deploy` route handler (main.rs lines
143-154): it spawns the worker thread - returned here as the deferred
registry transformation `deployWorkerRun app p` - and immediately replies.
It performs no registry modification of its own before responding, so the
first component is the registry exactly as received. -/
def deployHandlerSync (app : String) (p : ProcBehavior) (jobs : List Job) :
    (List Job × Response) × (List Job → List Job) :=
  ((jobs, Response.emptyReply), deployWorkerRun app p)

/-- The body of the thread spawned by the `/deploy2` route handler
(main.rs lines 160-167), transcribed separately from `/deploy` so the two
routes can be compared. -/
def deploy2WorkerRun (app : String) (p : ProcBehavior) (jobs : List Job) : List Job :=
  let job := Job.new app
  let registered := register jobs job
  setResult registered jobs.length (deploy_app p).1

/-- The synchronous part of the `/deploy2` route handler (main.rs lines
159-170), transcribed separately from `/deploy`. -/
def deploy2HandlerSync (app : String) (p : ProcBehavior) (jobs : List Job) :
    (List Job × Response) × (List Job → List Job) :=
  ((jobs, Response.emptyReply), deploy2WorkerRun app p)

/-- Concatenation of a list of strings, used to state what text the read
loop accumulates. -/
def concatAll : List String → String
  | [] => ""
  | l :: ls => l ++ concatAll ls

/-- The cumulative concatenations of a list of lines starting from `acc`:
after the k-th line arrives, the recorded output is exactly the
concatenation of the first k lines. -/
def cumConcat (acc : String) : List String → List String
  | [] => []
  | l :: ls => (acc ++ l) :: cumConcat (acc ++ l) ls

/-- A sequence of output strings is append-only when each entry extends the
previous one. -/
def appendOnlyB : List String → Bool
  | a :: b :: rest => a.data.isPrefixOf b.data && appendOnlyB (b :: rest)
  | _ => true

/-- The output strings of a sequence of job results. -/
def outputs (trace : List JobResult) : List String := trace.map JobResult.output

/-- A run whose deploy script cannot be spawned (`Command::spawn` fails,
e.g. the resolved `.deploy` file is not executable). -/
def pSpawnFail : ProcBehavior :=
  { spawnOk := false, stdoutReads := [], stderrLines := [],
    waitResult := .ok ⟨some 0⟩ }

/-- A run whose script produces no output and exits with code 1. -/
def pExit1 : ProcBehavior :=
  { spawnOk := true, stdoutReads := [], stderrLines := [],
    waitResult := .ok ⟨some 1⟩ }

/-- A run whose process is killed by a signal: `wait` succeeds but
`ExitStatus::code()` is `None`. -/
def pSignal : ProcBehavior :=
  { spawnOk := true, stdoutReads := [], stderrLines := [],
    waitResult := .ok ⟨none⟩ }

/-- A run that writes one line to stderr, nothing to stdout, and exits 0. -/
def pStderrLine : ProcBehavior :=
  { spawnOk := true, stdoutReads := [], stderrLines := ["oops\n"],
    waitResult := .ok ⟨some 0⟩ }

/-- A run whose stdout is a valid line, then a malformed (non-UTF-8) line,
then another valid line, exiting 0. -/
def pBadUtf8 : ProcBehavior :=
  { spawnOk := true, stdoutReads := [.ok "a\n", .error (), .ok "b\n"],
    stderrLines := [], waitResult := .ok ⟨some 0⟩ }

/-- A run that writes one stdout line and whose `child.wait()` then fails. -/
def pWaitFail : ProcBehavior :=
  { spawnOk := true, stdoutReads := [.ok "hello\n"], stderrLines := [],
    waitResult := .error "boom" }

/-- A job as created for application "alpha". -/
def jA : Job := Job.new "alpha"

/-- A job as created for application "beta". -/
def jB : Job := Job.new "beta"

-- sanity checks (kept as plain examples)
example : deploy_app { spawnOk := true, stdoutReads := [.ok "a\n"],
                       stderrLines := [], waitResult := .ok ⟨some 0⟩ } =
    ({ output := "a\n", status := some 0 }, .finished) := by decide

example : deploy_app { spawnOk := true, stdoutReads := [.ok "a\n"],
                       stderrLines := [], waitResult := .ok ⟨some 1⟩ } =
    ({ output := "a\n", status := none }, .panicked) := by decide

/-! ## Helper lemmas -/

theorem isPrefixOf_append_self (l t : List Char) : l.isPrefixOf (l ++ t) = true := by
  induction l with
  | nil => cases t <;> rfl
  | cons a as ih => simp [List.isPrefixOf, ih]

theorem isPrefixOf_self (l : List Char) : l.isPrefixOf l = true := by
  induction l with
  | nil => rfl
  | cons a as ih => simp [List.isPrefixOf, ih]

theorem readLoop_allOk (lines : List String) (acc : String) :
    readLoop (lines.map Except.ok) acc = acc ++ concatAll lines := by
  induction lines generalizing acc with
  | nil => simp [readLoop, concatAll, String.append_empty]
  | cons l ls ih => simp [readLoop, concatAll, ih, String.append_assoc]

theorem readLoop_stops_at_error (pre : List String) (post : List ReadOutcome)
    (acc : String) :
    readLoop (pre.map Except.ok ++ .error () :: post) acc = acc ++ concatAll pre := by
  induction pre generalizing acc with
  | nil => simp [readLoop, concatAll, String.append_empty]
  | cons l ls ih => simp [readLoop, concatAll, ih, String.append_assoc]

theorem readLoopTrace_allOk (lines : List String) (acc : String) :
    readLoopTrace (lines.map Except.ok) acc = cumConcat acc lines := by
  induction lines generalizing acc with
  | nil => rfl
  | cons l ls ih => simp [readLoopTrace, cumConcat, ih]

theorem readLoopTrace_chain (reads : List ReadOutcome) (acc : String) :
    appendOnlyB (acc :: readLoopTrace reads acc) = true := by
  induction reads generalizing acc with
  | nil => rfl
  | cons r rest ih =>
    cases r with
    | error e => rfl
    | ok line =>
      simp [readLoopTrace, appendOnlyB, String.data_append,
            isPrefixOf_append_self, ih (acc ++ line)]

theorem readLoopTrace_getLastD (reads : List ReadOutcome) (acc : String) :
    (readLoopTrace reads acc).getLastD acc = readLoop reads acc := by
  induction reads generalizing acc with
  | nil => rfl
  | cons r rest ih =>
    cases r with
    | error e => rfl
    | ok line =>
      simp only [readLoopTrace, readLoop, List.getLastD_cons]
      exact ih (acc ++ line)

theorem appendOnlyB_concat :
    ∀ (l : List String) (acc x : String), appendOnlyB (acc :: l) = true →
      (l.getLastD acc).data.isPrefixOf x.data = true →
      appendOnlyB ((acc :: l) ++ [x]) = true := by
  intro l
  induction l with
  | nil =>
    intro acc x _ h2
    simpa [appendOnlyB] using h2
  | cons b bs ih =>
    intro acc x h1 h2
    rw [List.getLastD_cons] at h2
    simp only [appendOnlyB, Bool.and_eq_true] at h1
    have hrest := ih b x h1.2 h2
    simp only [List.cons_append] at hrest ⊢
    simp only [appendOnlyB, Bool.and_eq_true]
    exact ⟨h1.1, hrest⟩

theorem outputs_init_states (reads : List ReadOutcome) :
    outputs (JobResult.init ::
        (readLoopTrace reads "").map (fun o => { output := o, status := none })) =
      "" :: readLoopTrace reads "" := by
  have hid : (JobResult.output ∘ fun o => ({ output := o, status := none } : JobResult)) =
      id := rfl
  simp only [outputs, List.map_cons, List.map_map, hid, List.map_id]
  rfl

theorem outputs_append (l : List JobResult) (x : JobResult) :
    outputs (l ++ [x]) = outputs l ++ [x.output] := by
  simp [outputs]

theorem set_concat_length {α : Type} (l : List α) (a b : α) :
    (l ++ [a]).set l.length b = l ++ [b] := by
  induction l with
  | nil => rfl
  | cons x xs ih => simp [List.cons_append, List.length_cons, List.set_cons_succ, ih]

theorem deployWorkerRun_registers (app : String) (p : ProcBehavior) (jobs : List Job) :
    deployWorkerRun app p jobs = jobs ++ [{ app := app, result := (deploy_app p).1 }] := by
  simp only [deployWorkerRun, setResult, register, List.getElem?_concat_length]
  simp [Job.new, set_concat_length]

/-! ## Claims -/

/-- Claim C1 (code bug): the spec requires that when the deploy script cannot
be spawned the runner still finalizes the job with sentinel status 255 and a
diagnostic line, never leaving it permanently running.  The code instead
calls `.spawn().unwrap()` (main.rs line 78), which panics the detached
runner thread: the job's result stays at its default - empty output, status
`none` - so the console shows it as "Running..." forever and no diagnostic
is recorded.  This theorem evaluates the code at the failing input. -/
theorem C1_spawn_failure_leaves_job_running :
    deploy_app pSpawnFail = (JobResult.init, RunEnd.panicked) ∧
    (deploy_app pSpawnFail).1.status = none ∧
    (deploy_app pSpawnFail).1.output = "" ∧
    summary (deploy_app pSpawnFail).1 = "Running..." :=
  ⟨rfl, rfl, rfl, rfl⟩

/-- Claim C2 (code bug): the spec requires that a script exiting with code N
yields `status = some N` after completion.  This holds only for N = 0: for
any non-zero exit, the code enters the `!status.success()` branch and calls
`child.stderr.take().unwrap()` (main.rs line 94), but stderr was never piped
(`Command::new(&script).stdout(Stdio::piped())` pipes only stdout), so that
`.unwrap()` panics before line 99 ever sets the status.  The job stays in
the running state forever.  This theorem evaluates the code at exit code 1
and, for contrast, at exit code 0 where the claim's behaviour does occur. -/
theorem C2_nonzero_exit_never_finalized :
    deploy_app pExit1 = ({ output := "", status := none }, RunEnd.panicked) ∧
    summary (deploy_app pExit1).1 = "Running..." ∧
    deploy_app { spawnOk := true, stdoutReads := [], stderrLines := [],
                 waitResult := .ok ⟨some 0⟩ } =
      ({ output := "", status := some 0 }, RunEnd.finished) :=
  ⟨rfl, rfl, rfl⟩

/-- Claim C3 (code bug): the spec requires that a process killed by a signal
(no reportable exit code) yields `status = some 255` plus a non-empty
diagnostic entry.  A signal-killed process has `status.success() = false`,
so the code hits the same unpiped-stderr `.unwrap()` panic (main.rs line 94)
before the `unwrap_or(255)` at line 99 can run: the job keeps `status = none`
and an empty output.  This theorem evaluates the code at the failing input. -/
theorem C3_signal_kill_never_finalized :
    deploy_app pSignal = ({ output := "", status := none }, RunEnd.panicked) ∧
    summary (deploy_app pSignal).1 = "Running..." ∧
    (deploy_app pSignal).1.output = "" :=
  ⟨rfl, rfl, rfl⟩

/-- Claim C4, counterexample: the claim says the recorded output is a merge
containing every line the script writes to stderr as well as stdout.  In the
run `pStderrLine` the script writes the line "oops\n" to stderr and exits 0;
the run finishes normally, yet the recorded output is empty - stderr is never
piped, so its lines cannot appear in `job.result.output` at all. -/
theorem C4_stderr_line_lost :
    pStderrLine.stderrLines = ["oops\n"] ∧
    (deploy_app pStderrLine).1.output = "" ∧
    (deploy_app pStderrLine).2 = RunEnd.finished :=
  ⟨rfl, rfl, rfl⟩

/-- Claim C4 (amended): only stdout is captured.  For a run whose piped
stdout delivers the lines `lines` (all valid UTF-8) and which exits 0, the
recorded output is exactly the concatenation of those lines in write order -
each line appended to the job's result as it is read (the successive values
of the output string are precisely the cumulative concatenations), no line
lost or duplicated - and the result is independent of whatever the script
wrote to stderr, which is not captured. -/
theorem C4_amended_stdout_only_incremental (lines errLines : List String) :
    deploy_app { spawnOk := true, stdoutReads := lines.map Except.ok,
                 stderrLines := errLines, waitResult := .ok ⟨some 0⟩ } =
      ({ output := concatAll lines, status := some 0 }, RunEnd.finished) ∧
    readLoopTrace (lines.map Except.ok) "" = cumConcat "" lines := by
  constructor
  · simp [deploy_app, WaitStatus.success, readLoop_allOk, String.empty_append]
  · exact readLoopTrace_allOk lines ""

/-- Claim C5, counterexample: the claim says a malformed (non-UTF-8) line is
dropped and all subsequent well-formed lines of the stream are still
delivered.  In the run `pBadUtf8` stdout delivers a valid line "a\n", then a
malformed line, then a valid line "b\n"; because the read loop is
`while let Ok(n) = output.read_line(..)` (main.rs line 82), the first `Err`
exits the loop, so the recorded output is just "a\n" - the subsequent
well-formed line "b\n" never appears (no character b occurs in the output). -/
theorem C5_line_after_bad_utf8_lost :
    pBadUtf8.stdoutReads = [.ok "a\n", .error (), .ok "b\n"] ∧
    (deploy_app pBadUtf8).1 = { output := "a\n", status := some 0 } ∧
    (deploy_app pBadUtf8).1.output.data.contains 'b' = false :=
  ⟨rfl, rfl, by decide⟩

/-- Claim C5 (amended): a malformed line terminates output capture - the
malformed line and every line after it on that stream are dropped - but it
is not fatal to the job: the runner still proceeds to `wait` and, here on a
clean exit, finalizes the job normally with its exit code, keeping exactly
the lines read before the malformed one. -/
theorem C5_amended_bad_line_stops_capture (pre : List String)
    (post : List ReadOutcome) (errLines : List String) :
    deploy_app { spawnOk := true,
                 stdoutReads := pre.map Except.ok ++ .error () :: post,
                 stderrLines := errLines, waitResult := .ok ⟨some 0⟩ } =
      ({ output := concatAll pre, status := some 0 }, RunEnd.finished) := by
  simp [deploy_app, WaitStatus.success, readLoop_stops_at_error, String.empty_append]

/-- Claim C6, counterexample: the claim says every write the runner performs
only appends, including the write made on wait failure.  In the run
`pWaitFail` the script writes "hello\n" and then `child.wait()` fails: the
code executes `*job.result.write().unwrap() = (format!("Error: {}", error), Some(255))`
(main.rs line 102), replacing the accumulated output wholesale - the
recorded sequence of output values is not append-only. -/
theorem C6_wait_failure_replaces_output :
    outputs (deployTrace pWaitFail) = ["", "hello\n", "Error: boom"] ∧
    appendOnlyB (outputs (deployTrace pWaitFail)) = false :=
  ⟨rfl, by decide⟩

/-- Claim C6 (amended): as long as `child.wait()` succeeds, the job's output
is append-only across the whole run - every value the output string takes
extends the previous one (the read loop only appends, and finalization only
sets the status).  Only the wait-failure path replaces recorded content. -/
theorem C6_amended_append_only_when_wait_ok (p : ProcBehavior) (st : WaitStatus)
    (h : p.waitResult = Except.ok st) :
    appendOnlyB (outputs (deployTrace p)) = true := by
  unfold deployTrace
  rw [h]
  by_cases hs : p.spawnOk = false
  · simp [hs, outputs, appendOnlyB, JobResult.init]
  · rw [if_neg hs]
    cases hsucc : st.success with
    | false =>
      simp only [hsucc, Bool.false_eq_true, if_false, childStderr]
      rw [outputs_init_states]
      exact readLoopTrace_chain p.stdoutReads ""
    | true =>
      simp only [hsucc, if_true]
      rw [outputs_append, outputs_init_states]
      refine appendOnlyB_concat (readLoopTrace p.stdoutReads "") "" _ (readLoopTrace_chain p.stdoutReads "") ?_
      rw [readLoopTrace_getLastD]
      exact isPrefixOf_self _

theorem C6_amended_append_only_witness :
    appendOnlyB (outputs (deployTrace pBadUtf8)) = true :=
  C6_amended_append_only_when_wait_ok pBadUtf8 ⟨some 0⟩ rfl

/-- Claim C7: the job registry is append-only with insertion order equal to
submission order.  Submitting any sequence of jobs (in whatever order the
concurrent triggers happen to acquire the registry's write lock, each `push`
being atomic under it) appends them in that order: the final registry is the
old one followed by the submitted jobs, its length grows by exactly the
number of submissions, every previously registered job keeps its position
and identity, every submitted job is visible in the listing at its own
position, and a runner mutating the result of the job at one index leaves
the job at every other index untouched. -/
theorem C7_registry_append_only (init submitted : List Job) :
    submitted.foldl register init = init ++ submitted ∧
    (submitted.foldl register init).length = init.length + submitted.length ∧
    (∀ i, i < init.length → (submitted.foldl register init)[i]? = init[i]?) ∧
    (∀ j, j ∈ submitted → j ∈ submitted.foldl register init) ∧
    (∀ (jobs : List Job) (i k : Nat) (r : JobResult), i ≠ k →
      (setResult jobs i r)[k]? = jobs[k]?) := by
  have hfold : ∀ (s acc : List Job), s.foldl register acc = acc ++ s := by
    intro s
    induction s with
    | nil => intro acc; simp [List.foldl]
    | cons j js ih =>
      intro acc
      simp [List.foldl, register, ih, List.append_assoc]
  refine ⟨hfold submitted init, ?_, ?_, ?_, ?_⟩
  · rw [hfold]; simp
  · intro i hi
    rw [hfold, List.getElem?_append]
    simp [hi]
  · intro j hj
    rw [hfold]
    exact List.mem_append_right _ hj
  · intro jobs i k r hik
    unfold setResult
    cases h : jobs[i]? with
    | none => rfl
    | some j => exact List.getElem?_set_ne hik

theorem C7_registry_append_only_witness :
    [jB].foldl register [jA] = [jA] ++ [jB] ∧
    ([jB].foldl register [jA])[0]? = ([jA] : List Job)[0]? ∧
    jB ∈ [jB].foldl register [jA] ∧
    (setResult [jA, jB] 0 { output := "x", status := some 0 })[1]? =
      ([jA, jB] : List Job)[1]? :=
  ⟨(C7_registry_append_only [jA] [jB]).1,
   (C7_registry_append_only [jA] [jB]).2.2.1 0 (by decide),
   (C7_registry_append_only [jA] [jB]).2.2.2.1 jB (by simp),
   (C7_registry_append_only [jA] [jB]).2.2.2.2 [jA, jB] 0 1 _ (by decide)⟩

/-- Claim C8, counterexample: the claim says the HTTP response is returned
only after the new job has been constructed and registered, so that the job
is already visible in a subsequent registry snapshot.  In the code, job
construction and registration happen inside the spawned worker thread
(main.rs lines 144-151), not before the reply: the synchronous part of the
`/deploy` handler replies while leaving the registry exactly as it found it,
so a snapshot taken at response time contains no job for the triggered
application. -/
theorem C8_response_before_registration :
    (deployHandlerSync "foo" pExit1 []).1.2 = Response.emptyReply ∧
    (deployHandlerSync "foo" pExit1 []).1.1 = [] :=
  ⟨rfl, rfl⟩

/-- Claim C8 (amended): the response is returned right after the worker
thread is launched; the registry is unchanged at that point and the reply
does not depend on the script's behaviour at all (the handler never waits
for - or even observes - the deploy script), while the deferred worker is
what constructs the job, registers it at the end of the registry and runs
`deploy_app` on it. -/
theorem C8_amended_registration_deferred (app : String) (p q : ProcBehavior)
    (jobs : List Job) :
    (deployHandlerSync app p jobs).1 = (jobs, Response.emptyReply) ∧
    (deployHandlerSync app p jobs).1 = (deployHandlerSync app q jobs).1 ∧
    (deployHandlerSync app p jobs).2 jobs =
      jobs ++ [{ app := app, result := (deploy_app p).1 }] :=
  ⟨rfl, rfl, deployWorkerRun_registers app p jobs⟩

/-- Claim C9, counterexample: the claim says every job carries a
process-unique identifier and the trigger returns a handle usable to
correlate the response with console entries.  The `Job` struct has only an
application name and a result record - `Job::new` yields exactly those two
fields with no identifier - and both deploy routes reply with the empty
`warp::reply::reply()`: the responses to two triggers for different
applications and different registry states are identical, so the response
carries nothing that could correlate it with a job. -/
theorem C9_no_job_identifier :
    (deployHandlerSync "appA" pExit1 []).1.2 =
      (deployHandlerSync "appB" pStderrLine [jA]).1.2 ∧
    Job.new "appA" = { app := "appA", result := { output := "", status := none } } :=
  ⟨rfl, rfl⟩

/-- Claim C9 (amended): a job consists of exactly the application name plus
the mutable result record, with no identifier field, and the trigger handler
always replies with the same empty response regardless of application,
script behaviour or registry state - the reply carries no job handle. -/
theorem C9_amended_constant_reply (appA appB : String) (p q : ProcBehavior)
    (jobsA jobsB : List Job) :
    (deployHandlerSync appA p jobsA).1.2 = (deployHandlerSync appB q jobsB).1.2 ∧
    (Job.new appA).app = appA ∧
    (Job.new appA).result = JobResult.init :=
  ⟨rfl, rfl, rfl⟩

/-- Claim C10: after their (different) authentication filters, the `/deploy`
and `/deploy2` routes behave identically: the synchronous handler parts and
the spawned worker bodies - job construction, registration into the shared
registry, execution via `deploy_app`, and the empty reply - are the same
function of the input.  `deploy2HandlerSync`/`deploy2WorkerRun` are
transcribed from main.rs lines 159-170 separately from
`deployHandlerSync`/`deployWorkerRun` (lines 143-154), and the two pairs of
definitions are equal. -/
theorem C10_routes_identical_after_auth :
    deployHandlerSync = deploy2HandlerSync ∧ deployWorkerRun = deploy2WorkerRun :=
  ⟨rfl, rfl⟩
